import Mathlib

/-!
Verification of the hackharvard dark-vessel analytics pipeline.

Shallow embedding of the Python sources under `backend/app/`:
`dark_event_detection.py`, `enhanced_dark_detection.py`, `proximity_index.py`,
`dark_event_context.py`, `suspicion_scoring.py`, and
`services/comprehensive_detector.py`.

Modelling conventions:
* timestamps are rational numbers of seconds (UTC epoch, aligned so that
  `hour = ⌊t/3600⌋ % 24`); `pd.Timedelta(minutes=m)` is `m * 60` seconds;
* floats are rationals; Python `round(x, d)` is `bround (10^d) x`
  (round-half-to-even, as Python's `round` documents);
* the haversine / geodesic distance functions (numpy trigonometry, geopy)
  are passed as explicit function parameters, exactly where the Python code
  calls an external library for them; no claim below depends on their
  numeric values, only on how the code uses them;
* pandas DataFrames are lists of records; `sort_values` is a stable sort
  (ties between fully equal keys are irrelevant to every claim).
-/

/-- Python `round(x * s) / s` for scale `s` (e.g. `round(x, 3)` is `bround 1000`):
round half to even. -/
def bround (s : ℕ) (x : ℚ) : ℚ :=
  ((if x * s - ⌊x * s⌋ < 1/2 then ⌊x * s⌋
    else if 1/2 < x * s - ⌊x * s⌋ then ⌊x * s⌋ + 1
    else if ⌊x * s⌋ % 2 = 0 then ⌊x * s⌋ else ⌊x * s⌋ + 1 : ℤ) : ℚ) / s

/-- The integer chosen by `bround` never exceeds an integer bound `k` that
dominates `x * s`. -/
lemma bround_le {s : ℕ} (hs : 0 < s) {x : ℚ} {k : ℤ} (h : x ≤ (k : ℚ) / s) :
    bround s x ≤ (k : ℚ) / s := by
  have hs' : (0 : ℚ) < (s : ℚ) := by exact_mod_cast hs
  have hy : x * s ≤ (k : ℚ) := by
    calc x * s ≤ ((k : ℚ) / s) * s := mul_le_mul_of_nonneg_right h (le_of_lt hs')
      _ = (k : ℚ) := by field_simp
  have hfloor : ⌊x * s⌋ ≤ k := by
    have h1 : ⌊x * s⌋ ≤ ⌊(k : ℚ)⌋ := Int.floor_le_floor hy
    simpa using h1
  have hfl : (⌊x * s⌋ : ℚ) ≤ x * s := Int.floor_le _
  have hsucc : ¬ (x * s - ⌊x * s⌋ < 1/2) → ⌊x * s⌋ + 1 ≤ k := by
    intro hhalf
    have h2 : (⌊x * s⌋ : ℚ) + 1/2 ≤ x * s := by
      have := not_lt.mp hhalf; linarith
    have hk : (⌊x * s⌋ : ℚ) < (k : ℚ) := by linarith
    have hk' : ⌊x * s⌋ < k := by exact_mod_cast hk
    omega
  unfold bround
  split_ifs with h1 h2 h3
  · exact div_le_div_of_nonneg_right (by exact_mod_cast hfloor) hs'.le
  · exact div_le_div_of_nonneg_right (by exact_mod_cast hsucc h1) hs'.le
  · exact div_le_div_of_nonneg_right (by exact_mod_cast hfloor) hs'.le
  · exact div_le_div_of_nonneg_right (by exact_mod_cast hsucc h1) hs'.le

/-- `bround` of a nonnegative number is nonnegative. -/
lemma bround_nonneg {s : ℕ} (hs : 0 < s) {x : ℚ} (h : 0 ≤ x) :
    0 ≤ bround s x := by
  have hs' : (0 : ℚ) < (s : ℚ) := by exact_mod_cast hs
  have hy : (0 : ℚ) ≤ x * s := mul_nonneg h (le_of_lt hs')
  have hfloor : (0 : ℤ) ≤ ⌊x * s⌋ := by
    have := Int.floor_le_floor hy
    simpa using Int.floor_nonneg.mpr hy
  unfold bround
  split_ifs <;>
    exact div_nonneg (by exact_mod_cast (by omega : (0:ℤ) ≤ _)) (le_of_lt hs')

/-- A single AIS position report (one row of the preprocessed DataFrame).
`is_fishing` keeps the source's tri-state integer encoding
(1 = fishing, 0 = not fishing, -1 = unknown, the `.get` default);
`distance_from_shore` is in metres. -/
structure AisFix where
  mmsi : ℕ
  t : ℚ
  lat : ℚ
  lon : ℚ
  speed : ℚ := 0
  is_fishing : ℤ := -1
  distance_from_shore : ℚ := 0
  deriving DecidableEq, Repr

/-- `sort_values(['MMSI', 'BaseDateTime'])`: lexicographic order of the two keys. -/
def fixLe (a b : AisFix) : Prop :=
  a.mmsi < b.mmsi ∨ (a.mmsi = b.mmsi ∧ a.t ≤ b.t)

instance : DecidableRel fixLe := fun a b => by
  unfold fixLe; infer_instance

instance : IsTotal AisFix fixLe := by
  constructor
  intro a b
  rcases Nat.lt_trichotomy a.mmsi b.mmsi with h | h | h
  · exact Or.inl (Or.inl h)
  · rcases le_total a.t b.t with ht | ht
    · exact Or.inl (Or.inr ⟨h, ht⟩)
    · exact Or.inr (Or.inr ⟨h.symm, ht⟩)
  · exact Or.inr (Or.inl h)

instance : IsTrans AisFix fixLe := by
  constructor
  intro a b c hab hbc
  rcases hab with h1 | ⟨e1, t1⟩
  · rcases hbc with h2 | ⟨e2, _⟩
    · exact Or.inl (h1.trans h2)
    · exact Or.inl (e2 ▸ h1)
  · rcases hbc with h2 | ⟨e2, t2⟩
    · exact Or.inl (e1 ▸ h2)
    · exact Or.inr ⟨e1.trans e2, t1.trans t2⟩

/-- `df.sort_values(by=['MMSI', 'BaseDateTime'])`. -/
def sortFix (df : List AisFix) : List AisFix := List.insertionSort fixLe df

/-- `df.sort_values("BaseDateTime")` (proximity indexer sorts by time only). -/
def timeLe (a b : AisFix) : Prop := a.t ≤ b.t

instance : DecidableRel timeLe := fun a b => by unfold timeLe; infer_instance

instance : IsTotal AisFix timeLe := ⟨fun a b => le_total a.t b.t⟩

instance : IsTrans AisFix timeLe := ⟨fun _ _ _ h1 h2 => le_trans h1 h2⟩

def sortByTime (df : List AisFix) : List AisFix := List.insertionSort timeLe df

/-- Pair each row with the previous row of the sorted frame when that row has
the same MMSI: this is what `df.groupby('MMSI')['BaseDateTime'].diff()`
compares against (groups are contiguous after the `(MMSI, time)` sort). -/
def withPrev : List AisFix → Option AisFix → List (Option AisFix × AisFix)
  | [], _ => []
  | x :: xs, p =>
    (match p with
     | some q => if q.mmsi = x.mmsi then (some q, x) else (none, x)
     | none => (none, x)) :: withPrev xs (some x)

/-- One row of the `dark_events_summary` frame of `detect_dark_events`:
`MMSI`, `GapStartTime` (the row's own `BaseDateTime`), `GapDuration` in seconds. -/
structure DarkGap where
  mmsi : ℕ
  gapStartTime : ℚ
  gapDuration : ℚ
  deriving DecidableEq, Repr

/-- The row filter `df['TimeDifference'] > pd.Timedelta(minutes=threshold_minutes)`. -/
def gapOf (thresholdMinutes : ℚ) : Option AisFix × AisFix → Option DarkGap
  | (none, _) => none
  | (some q, x) =>
    if x.t - q.t > thresholdMinutes * 60 then
      some ⟨x.mmsi, x.t, x.t - q.t⟩
    else none

/-- `detect_dark_events` (dark_event_detection.py): sort by `(MMSI, BaseDateTime)`,
take per-vessel consecutive time differences, keep the rows whose difference
strictly exceeds the threshold. -/
def detect_dark_events (df : List AisFix) (thresholdMinutes : ℚ) : List DarkGap :=
  (withPrev (sortFix df) none).filterMap (gapOf thresholdMinutes)

lemma withPrev_filterMap_same_mmsi (thr : ℚ) (m : ℕ) :
    ∀ (l : List AisFix) (q : AisFix), (∀ f ∈ l, f.mmsi = m) → q.mmsi = m →
    (withPrev l (some q)).filterMap (gapOf thr) =
      ((q :: l).zip l).filterMap
        (fun ab => if ab.2.t - ab.1.t > thr * 60 then
          some ⟨ab.2.mmsi, ab.2.t, ab.2.t - ab.1.t⟩ else none)
  | [], q, _, _ => rfl
  | x :: xs, q, hall, hq => by
    have hx : x.mmsi = m := hall x (List.mem_cons_self x xs)
    have hxs : ∀ f ∈ xs, f.mmsi = m := fun f hf => hall f (List.mem_cons_of_mem x hf)
    simp only [withPrev, List.zip_cons_cons, List.filterMap_cons]
    rw [if_pos (hq.trans hx.symm)]
    have ih := withPrev_filterMap_same_mmsi thr m xs x hxs hx
    cases h : decide (x.t - q.t > thr * 60) with
    | true =>
      have h' : x.t - q.t > thr * 60 := of_decide_eq_true h
      simp only [gapOf, if_pos h', ih]
    | false =>
      have h' : ¬ (x.t - q.t > thr * 60) := of_decide_eq_false h
      simp only [gapOf, if_neg h', ih]

/-- `classify_region` (enhanced_dark_detection.py): cascading latitude and
longitude rules. -/
def classify_region (lat lon : ℚ) : String :=
  if -90 ≤ lat ∧ lat ≤ -30 then "Southern Ocean"
  else if 30 ≤ lat ∧ lat ≤ 70 then "Northern Pacific/Atlantic"
  else if -30 ≤ lat ∧ lat ≤ 30 then
    (if -180 ≤ lon ∧ lon ≤ -80 then "Eastern Pacific"
     else if -80 ≤ lon ∧ lon ≤ 20 then "Atlantic"
     else if 20 ≤ lon ∧ lon ≤ 180 then "Indo-Pacific"
     else if 60 < |lat| then "High Latitude Zone"
     else "Open Ocean")
  else if 60 < |lat| then "High Latitude Zone"
  else "Open Ocean"

/-- One record of `detect_enhanced_dark_events`' result list (the vessel
name/type/length metadata, copied verbatim from the row, is omitted). -/
structure EnhancedEvent where
  mmsi : ℕ
  start : ℚ
  end_ : ℚ
  region : String
  location : ℚ × ℚ
  start_location : ℚ × ℚ
  end_location : ℚ × ℚ
  duration_hours : ℚ
  deriving DecidableEq, Repr

/-- `detect_enhanced_dark_events` (enhanced_dark_detection.py): sort by
`(MMSI, BaseDateTime)`, keep rows whose per-vessel time difference strictly
exceeds the threshold, and for each such row look up
`df[(MMSI == row.MMSI) & (BaseDateTime < row.BaseDateTime)].tail(1)` as the
start fix; the event's location is the arithmetic midpoint, its region is
`classify_region` of that midpoint, and `duration_hours` is rounded to two
decimals. -/
def detect_enhanced_dark_events (df : List AisFix) (thresholdMinutes : ℚ) :
    List EnhancedEvent :=
  let s := sortFix df
  (withPrev s none).filterMap fun pr =>
    match pr.1 with
    | none => none
    | some q =>
      if pr.2.t - q.t > thresholdMinutes * 60 then
        match (s.filter fun y => decide (y.mmsi = pr.2.mmsi) && decide (y.t < pr.2.t)).getLast? with
        | none => none
        | some p =>
          some { mmsi := pr.2.mmsi
                 start := p.t
                 end_ := pr.2.t
                 region := classify_region ((p.lat + pr.2.lat) / 2) ((p.lon + pr.2.lon) / 2)
                 location := ((p.lat + pr.2.lat) / 2, (p.lon + pr.2.lon) / 2)
                 start_location := (p.lat, p.lon)
                 end_location := (pr.2.lat, pr.2.lon)
                 duration_hours := bround 100 ((pr.2.t - p.t) / 3600) }
      else none

/-- C5: on a per-vessel time-ordered fix sequence the gap detector emits an
event for a consecutive pair of fixes exactly when the pair's time difference
strictly exceeds `threshold_minutes`; a gap of exactly the threshold (for a
nonnegative threshold) produces no event, and a single fix produces none. -/
theorem C5_gap_strict_iff (m : ℕ) (thr : ℚ) (fixes : List AisFix)
    (hm : ∀ f ∈ fixes, f.mmsi = m)
    (hs : fixes.Chain' (fun a b => a.t ≤ b.t)) :
    detect_dark_events fixes thr =
      (fixes.zip fixes.tail).filterMap
        (fun ab => if ab.2.t - ab.1.t > thr * 60 then
          some ⟨ab.2.mmsi, ab.2.t, ab.2.t - ab.1.t⟩ else none)
    ∧ (∀ f : AisFix, detect_dark_events [f] thr = [])
    ∧ (∀ a b : AisFix, a.mmsi = b.mmsi → 0 ≤ thr → b.t - a.t = thr * 60 →
        detect_dark_events [a, b] thr = []) := by
  refine ⟨?_, ?_, ?_⟩
  · have hsorted : List.Sorted fixLe fixes := by
      have hp : fixes.Pairwise (fun a b : AisFix => a.t ≤ b.t) := by
        have : IsTrans AisFix (fun a b : AisFix => a.t ≤ b.t) :=
          ⟨fun _ _ _ h1 h2 => le_trans h1 h2⟩
        exact (List.chain'_iff_pairwise).mp hs
      exact hp.imp_of_mem fun ha hb hab =>
        Or.inr ⟨(hm _ ha).trans (hm _ hb).symm, hab⟩
    unfold detect_dark_events sortFix
    rw [hsorted.insertionSort_eq]
    cases fixes with
    | nil => rfl
    | cons x xs =>
      have hx : x.mmsi = m := hm x (List.mem_cons_self x xs)
      have hxs : ∀ f ∈ xs, f.mmsi = m := fun f hf => hm f (List.mem_cons_of_mem x hf)
      simp only [withPrev, List.filterMap_cons, gapOf, List.tail_cons]
      exact withPrev_filterMap_same_mmsi thr m xs x hxs hx
  · intro f
    simp [detect_dark_events, sortFix, List.insertionSort, withPrev, gapOf]
  · intro a b hmm hthr heq
    have hab : fixLe a b := Or.inr ⟨hmm, by nlinarith⟩
    have hne : ¬ (b.t - a.t > thr * 60) := by rw [heq]; exact lt_irrefl _
    simp only [detect_dark_events, sortFix, List.insertionSort, List.orderedInsert]
    rw [if_pos hab]
    simp [withPrev, gapOf, hmm, hne]

/-- Witness for C5 at a concrete two-fix input. -/
theorem C5_gap_strict_iff_witness :
    detect_dark_events [⟨1, 0, 10, 20, 0, -1, 0⟩, ⟨1, 3600, 101/10, 201/10, 0, -1, 0⟩] 10 =
      [⟨1, 3600, 3600⟩] ∧
    detect_dark_events [⟨1, 0, 10, 20, 0, -1, 0⟩] 10 = [] ∧
    detect_dark_events [⟨1, 0, 10, 20, 0, -1, 0⟩, ⟨1, 600, 10, 20, 0, -1, 0⟩] 10 = [] := by
  have h := C5_gap_strict_iff 1 10
    [⟨1, 0, 10, 20, 0, -1, 0⟩, ⟨1, 3600, 101/10, 201/10, 0, -1, 0⟩]
    (by simp) (by norm_num [List.chain'_cons])
  refine ⟨?_, h.2.1 _, h.2.2 ⟨1, 0, 10, 20, 0, -1, 0⟩ ⟨1, 600, 10, 20, 0, -1, 0⟩ rfl (by norm_num) (by norm_num)⟩
  rw [h.1]
  norm_num [List.zip_cons_cons, List.zip_nil_right, List.filterMap_cons]

/-- The two fixes of the single-vessel-gap scenario: mmsi 1 at
(t = 0, 10.0, 20.0) and (t = 3600 s, 10.1, 20.1). -/
def scenarioFix1 : AisFix := ⟨1, 0, 10, 20, 0, -1, 0⟩

def scenarioFix2 : AisFix := ⟨1, 3600, 101/10, 201/10, 0, -1, 0⟩

lemma enhanced_two_fix_eval :
    detect_enhanced_dark_events [scenarioFix1, scenarioFix2] 10 =
      [{ mmsi := 1
         start := 0
         end_ := 3600
         region := "Indo-Pacific"
         location := (201/20, 401/20)
         start_location := (10, 20)
         end_location := (101/10, 201/10)
         duration_hours := 1 }] := by
  norm_num [detect_enhanced_dark_events, sortFix, List.insertionSort,
    List.orderedInsert, fixLe, withPrev, List.filterMap_cons, List.filter,
    classify_region, bround, scenarioFix1, scenarioFix2]

/-- C3 (counterexample): on the two-fix scenario the emitted event's midpoint is
(10.05, 20.05), whose longitude 20.05 falls in the `20 ≤ lon ≤ 180` branch of
`classify_region`, so the region is "Indo-Pacific"; the claim's region
"Atlantic" (the `-80 ≤ lon ≤ 20` branch) is wrong for this input. -/
theorem C3_region_counterexample :
    ¬ ((detect_enhanced_dark_events [scenarioFix1, scenarioFix2] 10).map
        (fun e => (e.duration_hours, e.location, e.region)) =
       [(1, ((201:ℚ)/20, (401:ℚ)/20), "Atlantic")]) := by
  rw [enhanced_two_fix_eval]
  simp

/-- C3 (amended): on the two fixes for mmsi 1 at (t = 0, 10.0, 20.0) and
(t = 3600 s, 10.1, 20.1) with `threshold_minutes = 10`,
`detect_enhanced_dark_events` emits exactly one event with
`duration_hours = 1`, midpoint location (10.05, 20.05) and region
"Indo-Pacific" (lat ∈ [−30, 30], lon = 20.05 ∈ [20, 180]). -/
theorem C3_single_vessel_gap_amended :
    detect_enhanced_dark_events [scenarioFix1, scenarioFix2] 10 =
      [{ mmsi := 1
         start := 0
         end_ := 3600
         region := "Indo-Pacific"
         location := (201/20, 401/20)
         start_location := (10, 20)
         end_location := (101/10, 201/10)
         duration_hours := 1 }] :=
  enhanced_two_fix_eval

/-- One record of `build_proximity_index`'s per-bin output frame `prox_df`
(proximity_index.py): `time_bin` is kept as the numeric bin start here;
its JSON string form is modelled separately for the checkpoint logic. -/
structure ProxRecord where
  time_bin : ℚ
  vessel1_mmsi : ℕ
  vessel2_mmsi : ℕ
  vessel1_location : ℚ × ℚ
  vessel2_location : ℚ × ℚ
  distance_km : ℚ
  deriving DecidableEq, Repr

/-- `df["BaseDateTime"].dt.floor(f"{time_window_minutes}min")`. -/
def timeBin (timeWindowMinutes : ℚ) (t : ℚ) : ℚ :=
  (⌊t / (timeWindowMinutes * 60)⌋ : ℤ) * (timeWindowMinutes * 60)

/-- All index pairs `(i, idx_i), (j, idx_j)` of a bin frame with `i < j`:
the BallTree `query_radius` neighbor lists restricted to `nbrs > idx`
("skip self & dupes") enumerate exactly the position pairs with a larger
second position. -/
def enumPairs (l : List AisFix) : List ((ℕ × AisFix) × (ℕ × AisFix)) :=
  l.enum.flatMap fun p => l.enum.filterMap fun q =>
    if p.1 < q.1 then some (p, q) else none

/-- The per-pair emission: a pair at positions `i < j` of the bin frame is a
BallTree neighbor pair iff its haversine distance is within the query radius
(`radius_rad = distance_threshold_km / 6371`, i.e. `distKm ≤ threshold`); the
emitted row recomputes the same haversine distance, rounded to two decimals.
`distKm` is the (externally computed) haversine distance in km. -/
def binRecOf (distKm : AisFix → AisFix → ℚ) (thresholdKm : ℚ) (b : ℚ)
    (pq : (ℕ × AisFix) × (ℕ × AisFix)) : Option ProxRecord :=
  if distKm pq.1.2 pq.2.2 ≤ thresholdKm then
    some { time_bin := b
           vessel1_mmsi := pq.1.2.mmsi
           vessel2_mmsi := pq.2.2.mmsi
           vessel1_location := (pq.1.2.lat, pq.1.2.lon)
           vessel2_location := (pq.2.2.lat, pq.2.2.lon)
           distance_km := bround 100 (distKm pq.1.2 pq.2.2) }
  else none

def binPairs (distKm : AisFix → AisFix → ℚ) (thresholdKm : ℚ) (b : ℚ)
    (l : List AisFix) : List ProxRecord :=
  (enumPairs l).filterMap (binRecOf distKm thresholdKm b)

/-- `build_proximity_index` (proximity_index.py), core per-bin pair
computation: sort by time, floor each timestamp to its bin, and for every bin
with at least two rows emit the position-ordered neighbor pairs within the
distance threshold.  (The `max_points_per_bin` random subsample and the
checkpoint I/O are not modelled here; the checkpoint/resume logic is modelled
separately below.) -/
def build_proximity_index (distKm : AisFix → AisFix → ℚ) (df : List AisFix)
    (timeWindowMinutes thresholdKm : ℚ) : List ProxRecord :=
  let s := sortByTime df
  ((s.map fun f => timeBin timeWindowMinutes f.t).dedup).flatMap fun b =>
    let binData := s.filter fun f => timeBin timeWindowMinutes f.t == b
    if binData.length < 2 then [] else binPairs distKm thresholdKm b binData

/-- A distance function agreeing with haversine on the inputs used in the
concrete scenarios below: haversine of two identical coordinate pairs is 0
(`a = sin² 0 + cos φ · cos φ · sin² 0 = 0`), and the scenarios keep distinct
coordinates far apart. -/
def coincideDist (a b : AisFix) : ℚ :=
  if (a.lat, a.lon) = (b.lat, b.lon) then 0 else 1000000

/-- Two co-located vessels (mmsi 5 then 3, positional order by time). -/
def proxDfA : List AisFix := [⟨5, 0, 0, 0, 0, -1, 0⟩, ⟨3, 60, 0, 0, 0, -1, 0⟩]

/-- One vessel with two fixes inside the same 10-minute bin. -/
def proxDfB : List AisFix := [⟨7, 0, 0, 0, 0, -1, 0⟩, ⟨7, 60, 0, 0, 0, -1, 0⟩]

lemma prox_eval_A :
    build_proximity_index coincideDist proxDfA 10 20 =
      [{ time_bin := 0, vessel1_mmsi := 5, vessel2_mmsi := 3,
         vessel1_location := (0, 0), vessel2_location := (0, 0),
         distance_km := 0 }] := by
  norm_num [build_proximity_index, sortByTime, List.insertionSort,
    List.orderedInsert, timeLe, timeBin, proxDfA, List.dedup, List.pwFilter,
    enumPairs, List.enum, List.enumFrom, binPairs, binRecOf, coincideDist,
    bround, List.filter, List.filterMap_cons]

lemma prox_eval_B :
    build_proximity_index coincideDist proxDfB 10 20 =
      [{ time_bin := 0, vessel1_mmsi := 7, vessel2_mmsi := 7,
         vessel1_location := (0, 0), vessel2_location := (0, 0),
         distance_km := 0 }] := by
  norm_num [build_proximity_index, sortByTime, List.insertionSort,
    List.orderedInsert, timeLe, timeBin, proxDfB, List.dedup, List.pwFilter,
    enumPairs, List.enum, List.enumFrom, binPairs, binRecOf, coincideDist,
    bround, List.filter, List.filterMap_cons]

/-- C1 (counterexample): `build_proximity_index` pairs rows by their position
inside the bin frame (BallTree indices), not by MMSI.  With vessels 5 and 3
co-located in one bin the emitted encounter has `vessel1_mmsi = 5 >
3 = vessel2_mmsi`, violating canonical MMSI ordering; and a single vessel
(mmsi 7) with two fixes in one bin yields an encounter with
`vessel1_mmsi = vessel2_mmsi = 7`, violating distinctness. -/
theorem C1_counterexample :
    (((build_proximity_index coincideDist proxDfA 10 20).map
        (fun r => (r.vessel1_mmsi, r.vessel2_mmsi)) = [(5, 3)]) ∧ ¬ (5 < 3)) ∧
    (((build_proximity_index coincideDist proxDfB 10 20).map
        (fun r => (r.vessel1_mmsi, r.vessel2_mmsi)) = [(7, 7)]) ∧ ¬ (7 ≠ 7)) := by
  rw [prox_eval_A, prox_eval_B]
  refine ⟨⟨rfl, by norm_num⟩, ⟨rfl, by norm_num⟩⟩

lemma snd_mem_of_mem_enumFrom {α : Type} {l : List α} :
    ∀ {n : ℕ} {p : ℕ × α}, p ∈ l.enumFrom n → p.2 ∈ l := by
  induction l with
  | nil => intro n p h; simp [List.enumFrom] at h
  | cons x xs ih =>
    intro n p h
    rcases List.mem_cons.mp (by simpa [List.enumFrom] using h) with h1 | h1
    · simp [h1]
    · exact List.mem_cons_of_mem _ (ih h1)

lemma snd_mem_of_mem_enum {α : Type} {l : List α} {p : ℕ × α} (h : p ∈ l.enum) :
    p.2 ∈ l :=
  snd_mem_of_mem_enumFrom (by simpa [List.enum] using h)

/-- C1 (amended): every encounter emitted by `build_proximity_index` comes
from two fixes of the input frame lying in the encounter's time bin whose
(externally computed) haversine distance is within the threshold;
`vessel1`/`vessel2` are the fix at the smaller/larger position in the bin
frame — NOT canonically MMSI-ordered, and not necessarily distinct vessels —
and the stored `distance_km` is that distance rounded to two decimals, which
is still ≤ the threshold whenever the threshold is a multiple of 0.01 km (as
the default 20 km is). -/
theorem C1_encounter_invariants (distKm : AisFix → AisFix → ℚ)
    (df : List AisFix) (w thr : ℚ) (hthr : ∃ k : ℤ, thr = (k : ℚ) / 100) :
    ∀ rec ∈ build_proximity_index distKm df w thr,
      rec.distance_km ≤ thr ∧
      ∃ x y : AisFix, x ∈ df ∧ y ∈ df ∧
        timeBin w x.t = rec.time_bin ∧ timeBin w y.t = rec.time_bin ∧
        distKm x y ≤ thr ∧
        rec.vessel1_mmsi = x.mmsi ∧ rec.vessel2_mmsi = y.mmsi ∧
        rec.vessel1_location = (x.lat, x.lon) ∧
        rec.vessel2_location = (y.lat, y.lon) ∧
        rec.distance_km = bround 100 (distKm x y) := by
  intro rec hrec
  obtain ⟨b, _hb, hrec2⟩ := List.mem_flatMap.mp hrec
  set s := sortByTime df with hs_def
  by_cases hlen : (s.filter fun f => timeBin w f.t == b).length < 2
  · rw [if_pos hlen] at hrec2; exact absurd hrec2 (List.not_mem_nil rec)
  rw [if_neg hlen] at hrec2
  obtain ⟨pq, hpq, hrec3⟩ := List.mem_filterMap.mp hrec2
  obtain ⟨p, hp, hq'⟩ := List.mem_flatMap.mp hpq
  obtain ⟨q, hq, hij⟩ := List.mem_filterMap.mp hq'
  have hij' : p.1 < q.1 ∧ pq = (p, q) := by
    by_cases hlt : p.1 < q.1
    · rw [if_pos hlt] at hij; exact ⟨hlt, (Option.some_injective _ hij).symm⟩
    · rw [if_neg hlt] at hij; exact absurd hij (by simp)
  have hdist : distKm pq.1.2 pq.2.2 ≤ thr := by
    by_contra hd
    unfold binRecOf at hrec3; rw [if_neg hd] at hrec3
    exact absurd hrec3 (by simp)
  have hrec4 : rec =
      { time_bin := b, vessel1_mmsi := pq.1.2.mmsi, vessel2_mmsi := pq.2.2.mmsi,
        vessel1_location := (pq.1.2.lat, pq.1.2.lon),
        vessel2_location := (pq.2.2.lat, pq.2.2.lon),
        distance_km := bround 100 (distKm pq.1.2 pq.2.2) } := by
    unfold binRecOf at hrec3; rw [if_pos hdist] at hrec3
    exact (Option.some_injective _ hrec3).symm
  have hxmem : pq.1.2 ∈ s.filter fun f => timeBin w f.t == b :=
    hij'.2 ▸ snd_mem_of_mem_enum hp
  have hymem : pq.2.2 ∈ s.filter fun f => timeBin w f.t == b :=
    hij'.2 ▸ snd_mem_of_mem_enum hq
  have hxdf : pq.1.2 ∈ df := by
    have := (List.mem_filter.mp hxmem).1
    exact ((List.perm_insertionSort timeLe df).mem_iff).mp this
  have hydf : pq.2.2 ∈ df := by
    have := (List.mem_filter.mp hymem).1
    exact ((List.perm_insertionSort timeLe df).mem_iff).mp this
  have hxbin : timeBin w pq.1.2.t = b := by
    have := (List.mem_filter.mp hxmem).2; exact beq_iff_eq.mp this
  have hybin : timeBin w pq.2.2.t = b := by
    have := (List.mem_filter.mp hymem).2; exact beq_iff_eq.mp this
  obtain ⟨k, hk⟩ := hthr
  have hround : bround 100 (distKm pq.1.2 pq.2.2) ≤ thr := by
    rw [hk] at hdist ⊢
    exact bround_le (by norm_num) hdist
  subst hrec4
  exact ⟨hround, pq.1.2, pq.2.2, hxdf, hydf, hxbin, hybin, hdist,
    rfl, rfl, rfl, rfl, rfl⟩

/-- Witness for C1 (amended) at the concrete two-vessel input. -/
theorem C1_encounter_invariants_witness :
    ((20 : ℚ) = ((2000 : ℤ) : ℚ) / 100) ∧
    ({ time_bin := 0, vessel1_mmsi := 5, vessel2_mmsi := 3,
       vessel1_location := (0, 0), vessel2_location := (0, 0),
       distance_km := 0 } : ProxRecord) ∈
        build_proximity_index coincideDist proxDfA 10 20 ∧
    (({ time_bin := 0, vessel1_mmsi := 5, vessel2_mmsi := 3,
        vessel1_location := (0, 0), vessel2_location := (0, 0),
        distance_km := 0 } : ProxRecord).distance_km ≤ 20 ∧
     ∃ x y : AisFix, x ∈ proxDfA ∧ y ∈ proxDfA ∧
        timeBin 10 x.t = (0 : ℚ) ∧ timeBin 10 y.t = (0 : ℚ) ∧
        coincideDist x y ≤ 20 ∧ 5 = x.mmsi ∧ 3 = y.mmsi ∧
        ((0 : ℚ), (0 : ℚ)) = (x.lat, x.lon) ∧ ((0 : ℚ), (0 : ℚ)) = (y.lat, y.lon) ∧
        (0 : ℚ) = bround 100 (coincideDist x y)) := by
  have hmem : ({ time_bin := 0, vessel1_mmsi := 5, vessel2_mmsi := 3,
                 vessel1_location := (0, 0), vessel2_location := (0, 0),
                 distance_km := 0 } : ProxRecord) ∈
        build_proximity_index coincideDist proxDfA 10 20 := by
    rw [prox_eval_A]; exact List.mem_singleton.mpr rfl
  exact ⟨by norm_num,
    hmem,
    C1_encounter_invariants coincideDist proxDfA 10 20 ⟨2000, by norm_num⟩ _ hmem⟩

/-- Python `str.replace(old, new)` on the character list, with fuel equal to
the string length (enough since a match consumes at least one character for
nonempty `old`). -/
def replaceChars : ℕ → List Char → List Char → List Char → List Char
  | 0, _, _, s => s
  | _, _, _, [] => []
  | fuel+1, old, new, c :: rest =>
    if old ≠ [] ∧ old.isPrefixOf (c :: rest) then
      new ++ replaceChars fuel old new ((c :: rest).drop old.length)
    else c :: replaceChars fuel old new rest

def pyReplace (s old new : String) : String :=
  ⟨replaceChars s.data.length old.data new.data s.data⟩

/-- `str(time_bin)` of a pandas Timestamp whose date part is `d` and
time-of-day part is `tod`: `"YYYY-MM-DD HH:MM:SS"` (space separator). -/
def strOfBin (d tod : String) : String := d ++ " " ++ tod

/-- `time_bin.isoformat()` of the same Timestamp: `"YYYY-MM-DDTHH:MM:SS"`
("T" separator); this is the form stored in each emitted record's
`time_bin` field. -/
def isoOfBin (d tod : String) : String := d ++ "T" ++ tod

/-- A saved proximity record as relevant to resume: only its `time_bin`
string is consulted (`processed_bins = {e["time_bin"] for e in existing}`). -/
structure SavedEnc where
  time_bin : String
  deriving DecidableEq, Repr

def processed_bins_of (existing : List SavedEnc) : List String :=
  (existing.map (fun e => e.time_bin)).dedup

/-- The resume block of `build_proximity_index`: if `resume` and
`os.path.exists(output_path)`, load `existing_events` from `output_path`
(never from the `_partial` checkpoint path) and derive the processed-bin
set from their `time_bin` fields when nonempty.  The filesystem is a map
from path to stored record list. -/
def resume_state (fs : String → Option (List SavedEnc)) (resume : Bool)
    (output_path : String) : List SavedEnc × List String :=
  if resume then
    match fs output_path with
    | some evts => (evts, if evts.isEmpty then [] else processed_bins_of evts)
    | none => ([], [])
  else ([], [])

/-- The per-bin skip test `if str(time_bin) in processed_bins: continue`. -/
def bin_skipped (processed : List String) (binStr : String) : Bool :=
  processed.contains binStr

/-- The periodic checkpoint: write the accumulated events to
`output_path.replace(".json", "_partial.json")`; nothing else changes —
in particular there is no rename onto `output_path`. -/
def checkpoint_write (fs : String → Option (List SavedEnc))
    (output_path : String) (evts : List SavedEnc) :
    String → Option (List SavedEnc) :=
  fun p => if p = pyReplace output_path ".json" "_partial.json" then some evts
           else fs p

/-- C2 (evidence of the code bug): (i) the periodic checkpoint serializes to
`proximity_index_partial.json`, a distinct path, and never renames it onto
`proximity_index.json` — the output path's content is untouched by a
checkpoint; (ii) even when a previous final save exists at the output path,
resume derives the processed-bin set from the stored `isoformat()` strings
("2024-01-01T00:00:00") while the loop's skip test uses `str(time_bin)`
("2024-01-01 00:00:00"), so the completed bin is not skipped. -/
theorem C2_checkpoint_resume_bug :
    (pyReplace "proximity_index.json" ".json" "_partial.json" =
        "proximity_index_partial.json" ∧
      "proximity_index_partial.json" ≠ "proximity_index.json") ∧
    (∀ (fs : String → Option (List SavedEnc)) (evts : List SavedEnc),
      checkpoint_write fs "proximity_index.json" evts "proximity_index.json" =
        fs "proximity_index.json") ∧
    ((resume_state
        (fun p => if p = "proximity_index.json"
                  then some [⟨isoOfBin "2024-01-01" "00:00:00"⟩] else none)
        true "proximity_index.json").2 = ["2024-01-01T00:00:00"] ∧
      bin_skipped ["2024-01-01T00:00:00"] (strOfBin "2024-01-01" "00:00:00") =
        false) := by
  refine ⟨⟨by decide, by decide⟩, ?_, by decide, by decide⟩
  intro fs evts
  have h : pyReplace "proximity_index.json" ".json" "_partial.json" =
      "proximity_index_partial.json" := by decide
  unfold checkpoint_write
  rw [h, if_neg (by decide)]

/-- `calculate_eez_proximity` (suspicion_scoring.py): 0.1 inside one of the
three latitude bands, 1.0 otherwise (`lon` is accepted but unused). -/
def calculate_eez_proximity (lat _lon : ℚ) : ℚ :=
  if (35 ≤ lat ∧ lat ≤ 45) ∨ (-45 ≤ lat ∧ lat ≤ -35) ∨ (-10 ≤ lat ∧ lat ≤ 10)
  then 1/10 else 1

/-- The event dict as consumed by `calculate_multi_factor_score`:
`coverage_reliability` is optional (`event.get('coverage_reliability', 0.5)`),
`is_fishing_vessel` defaults to `False`, and
`continuously_transmitting_nearby` defaults to 0. -/
structure ScoreInput where
  mmsi : ℕ
  start : ℚ
  duration_hours : ℚ
  location : ℚ × ℚ
  coverage_reliability : Option ℚ := none
  is_fishing_vessel : Bool := false
  continuously_transmitting_nearby : ℕ := 0
  deriving DecidableEq, Repr

/-- `min(event['duration_hours'] / 6.0, 1.0) * 0.3`. -/
def durationScoreRaw (d : ℚ) : ℚ := min (d / 6) 1 * (3/10)

/-- `(1 - event.get('coverage_reliability', 0.5)) * 0.2`. -/
def coverageScoreRaw (cr : Option ℚ) : ℚ := (1 - cr.getD (1/2)) * (2/10)

/-- `(1 - calculate_eez_proximity(lat, lon)) * 0.2`. -/
def eezScoreRaw (lat lon : ℚ) : ℚ := (1 - calculate_eez_proximity lat lon) * (2/10)

/-- `((0.5 if is_fishing else 0) + (0.5 if has_fishing_nearby else 0)) * 0.2`. -/
def fishingScoreRaw (isFishingVessel : Bool) (nearby : ℕ) : ℚ :=
  ((if isFishingVessel then (5:ℚ)/10 else 0) +
   (if nearby > 0 then (5:ℚ)/10 else 0)) * (2/10)

/-- `min(repeat_count / 10.0, 1.0) * 0.1`. -/
def repeatScoreRaw (c : ℕ) : ℚ := min ((c : ℚ) / 10) 1 * (1/10)

/-- The score dict returned by `calculate_multi_factor_score`: every entry is
rounded to three decimals when stored. -/
structure Scores where
  total_score : ℚ
  duration_score : ℚ
  coverage_score : ℚ
  eez_score : ℚ
  fishing_score : ℚ
  repeat_score : ℚ
  deriving DecidableEq, Repr

/-- `calculate_multi_factor_score` (suspicion_scoring.py): five weighted
sub-scores; `total_score` is the sum of the (unrounded) sub-scores, and every
stored entry is `round(·, 3)`. -/
def calculate_multi_factor_score (e : ScoreInput)
    (repeat_offender_counts : ℕ → ℕ) : Scores :=
  { total_score := bround 1000
      (durationScoreRaw e.duration_hours +
       coverageScoreRaw e.coverage_reliability +
       eezScoreRaw e.location.1 e.location.2 +
       fishingScoreRaw e.is_fishing_vessel e.continuously_transmitting_nearby +
       repeatScoreRaw (repeat_offender_counts e.mmsi))
    duration_score := bround 1000 (durationScoreRaw e.duration_hours)
    coverage_score := bround 1000 (coverageScoreRaw e.coverage_reliability)
    eez_score := bround 1000 (eezScoreRaw e.location.1 e.location.2)
    fishing_score := bround 1000
      (fishingScoreRaw e.is_fishing_vessel e.continuously_transmitting_nearby)
    repeat_score := bround 1000 (repeatScoreRaw (repeat_offender_counts e.mmsi)) }

/-- A scored event: the original dict (`base`) updated with the score entries
and `is_highly_suspicious = scores['total_score'] >= 0.7`. -/
structure ScoredEvent where
  base : ScoreInput
  scores : Scores
  is_highly_suspicious : Bool
  deriving DecidableEq, Repr

/-- `repeat_counts[mmsi] += 1` over the event list (a `defaultdict(int)`,
so absent keys read as 0). -/
def repeat_counts (events : List ScoreInput) : ℕ → ℕ :=
  fun m => (events.filter fun e => e.mmsi == m).length

def scoreOne (rc : ℕ → ℕ) (e : ScoreInput) : ScoredEvent :=
  let s := calculate_multi_factor_score e rc
  { base := e, scores := s, is_highly_suspicious := decide ((7:ℚ)/10 ≤ s.total_score) }

/-- `dark_events.sort(key=lambda x: x['total_score'], reverse=True)`:
a stable sort whose only key is `total_score`, descending. -/
def scoredGe (a b : ScoredEvent) : Prop := b.scores.total_score ≤ a.scores.total_score

instance : DecidableRel scoredGe := fun a b => by unfold scoredGe; infer_instance

instance : IsTotal ScoredEvent scoredGe :=
  ⟨fun a b => (le_total b.scores.total_score a.scores.total_score).imp id id⟩

instance : IsTrans ScoredEvent scoredGe := ⟨fun _ _ _ h1 h2 => le_trans h2 h1⟩

/-- `score_all_events` (suspicion_scoring.py): count repeat offenders, score
every event, then stable-sort by `total_score` descending. -/
def score_all_events (events : List ScoreInput) : List ScoredEvent :=
  List.insertionSort scoredGe (events.map (scoreOne (repeat_counts events)))

/-- The ordering asserted by the specification: strictly descending
`total_score` with ties broken by ascending `mmsi`, then ascending `start`. -/
def claimKeyLe (a b : ScoredEvent) : Prop :=
  b.scores.total_score < a.scores.total_score ∨
  (a.scores.total_score = b.scores.total_score ∧
    (a.base.mmsi < b.base.mmsi ∨
     (a.base.mmsi = b.base.mmsi ∧ a.base.start ≤ b.base.start)))

instance : DecidableRel claimKeyLe := fun a b => by unfold claimKeyLe; infer_instance

/-- Two events identical in every scoring-relevant field, listed with the
larger MMSI first. -/
def tieEventA : ScoreInput := ⟨2, 0, 6, (0, 0), none, false, 0⟩

def tieEventB : ScoreInput := ⟨1, 0, 6, (0, 0), none, false, 0⟩

lemma tie_events_eval :
    score_all_events [tieEventA, tieEventB] =
      [{ base := tieEventA
         scores := { total_score := 59/100, duration_score := 3/10,
                     coverage_score := 1/10, eez_score := 9/50,
                     fishing_score := 0, repeat_score := 1/100 }
         is_highly_suspicious := false },
       { base := tieEventB
         scores := { total_score := 59/100, duration_score := 3/10,
                     coverage_score := 1/10, eez_score := 9/50,
                     fishing_score := 0, repeat_score := 1/100 }
         is_highly_suspicious := false }] := by
  norm_num [score_all_events, List.insertionSort, List.orderedInsert, scoredGe,
    scoreOne, repeat_counts, calculate_multi_factor_score, durationScoreRaw,
    coverageScoreRaw, eezScoreRaw, fishingScoreRaw, repeatScoreRaw,
    calculate_eez_proximity, bround, tieEventA, tieEventB, List.filter_cons,
    List.filter_nil, beq_iff_eq]

/-- C4 (counterexample): `score_all_events` sorts only by `total_score`
(stably), so two events with equal scores keep their input order; with the
larger MMSI first, the output is NOT sorted by the claimed key
`(−total_score, mmsi, start)`. -/
theorem C4_sort_key_counterexample :
    ¬ (score_all_events [tieEventA, tieEventB]).Pairwise claimKeyLe := by
  rw [tie_events_eval]
  intro h
  have h2 := List.rel_of_pairwise_cons h (List.mem_singleton.mpr rfl)
  rcases h2 with h3 | ⟨_, h4 | ⟨h5, _⟩⟩
  · exact absurd h3 (by norm_num)
  · exact absurd h4 (by norm_num [tieEventA, tieEventB])
  · exact absurd h5 (by norm_num [tieEventA, tieEventB])

/-- C4 (amended): the scored list is sorted by `total_score` descending and is
a permutation of the scored inputs; ties keep their input order (the sort is
stable — illustrated by the tied pair above, which stays in input order
[mmsi 2, mmsi 1] instead of the claimed mmsi-ascending order). -/
theorem C4_sorted_by_score_desc :
    (∀ events : List ScoreInput,
      (score_all_events events).Pairwise scoredGe ∧
      (score_all_events events).Perm
        (events.map (scoreOne (repeat_counts events)))) ∧
    (score_all_events [tieEventA, tieEventB]).map (fun s => s.base.mmsi) = [2, 1] := by
  constructor
  · intro events
    exact ⟨List.sorted_insertionSort scoredGe _, List.perm_insertionSort scoredGe _⟩
  · rw [tie_events_eval]; rfl

lemma bround1000_mem_unit {x : ℚ} (h0 : 0 ≤ x) (h1 : x ≤ 1) :
    0 ≤ bround 1000 x ∧ bround 1000 x ≤ 1 := by
  refine ⟨bround_nonneg (by norm_num) h0, ?_⟩
  have h := bround_le (s := 1000) (by norm_num) (x := x) (k := 1000)
    (by push_cast; linarith)
  push_cast at h
  linarith

lemma durationScoreRaw_bounds {d : ℚ} (hd : 0 ≤ d) :
    0 ≤ durationScoreRaw d ∧ durationScoreRaw d ≤ 3/10 := by
  unfold durationScoreRaw
  constructor
  · have : (0:ℚ) ≤ min (d / 6) 1 := le_min (by positivity) (by norm_num)
    positivity
  · nlinarith [min_le_right (d / 6) (1:ℚ), le_min (by positivity : (0:ℚ) ≤ d / 6) (by norm_num : (0:ℚ) ≤ 1)]

lemma coverageScoreRaw_bounds {cr : Option ℚ}
    (h : ∀ c ∈ cr, 0 ≤ c ∧ c ≤ 1) :
    0 ≤ coverageScoreRaw cr ∧ coverageScoreRaw cr ≤ 2/10 := by
  have hc : 0 ≤ cr.getD (1/2) ∧ cr.getD (1/2) ≤ 1 := by
    cases cr with
    | none => norm_num
    | some c => exact h c rfl
  unfold coverageScoreRaw
  constructor <;> nlinarith [hc.1, hc.2]

lemma eezScoreRaw_bounds (lat lon : ℚ) :
    0 ≤ eezScoreRaw lat lon ∧ eezScoreRaw lat lon ≤ 2/10 := by
  unfold eezScoreRaw calculate_eez_proximity
  split_ifs <;> norm_num

lemma fishingScoreRaw_bounds (b : Bool) (n : ℕ) :
    0 ≤ fishingScoreRaw b n ∧ fishingScoreRaw b n ≤ 2/10 := by
  unfold fishingScoreRaw
  split_ifs <;> norm_num

lemma repeatScoreRaw_bounds (c : ℕ) :
    0 ≤ repeatScoreRaw c ∧ repeatScoreRaw c ≤ 1/10 := by
  unfold repeatScoreRaw
  have h0 : (0:ℚ) ≤ min ((c : ℚ) / 10) 1 := le_min (by positivity) (by norm_num)
  have h1 : min ((c : ℚ) / 10) 1 ≤ 1 := min_le_right _ _
  constructor <;> nlinarith

/-- C7 (amended): for every event, each stored sub-score lies in [0, 1] (in
fact within its weight), the stored `total_score` is the three-decimal
rounding of the sum of the UNROUNDED weighted sub-scores (so it can differ
from the sum of the five stored, individually rounded sub-scores), and
`total_score` lies in [0, 1]. Hypotheses: the event's duration is nonnegative
and its coverage reliability, when present, lies in [0, 1]. -/
theorem C7_scored_event_bounds (e : ScoreInput) (rc : ℕ → ℕ)
    (hd : 0 ≤ e.duration_hours)
    (hcov : ∀ c ∈ e.coverage_reliability, 0 ≤ c ∧ c ≤ 1) :
    (0 ≤ (calculate_multi_factor_score e rc).duration_score ∧
      (calculate_multi_factor_score e rc).duration_score ≤ 1) ∧
    (0 ≤ (calculate_multi_factor_score e rc).coverage_score ∧
      (calculate_multi_factor_score e rc).coverage_score ≤ 1) ∧
    (0 ≤ (calculate_multi_factor_score e rc).eez_score ∧
      (calculate_multi_factor_score e rc).eez_score ≤ 1) ∧
    (0 ≤ (calculate_multi_factor_score e rc).fishing_score ∧
      (calculate_multi_factor_score e rc).fishing_score ≤ 1) ∧
    (0 ≤ (calculate_multi_factor_score e rc).repeat_score ∧
      (calculate_multi_factor_score e rc).repeat_score ≤ 1) ∧
    (calculate_multi_factor_score e rc).total_score =
      bround 1000 (durationScoreRaw e.duration_hours +
        coverageScoreRaw e.coverage_reliability +
        eezScoreRaw e.location.1 e.location.2 +
        fishingScoreRaw e.is_fishing_vessel e.continuously_transmitting_nearby +
        repeatScoreRaw (rc e.mmsi)) ∧
    (0 ≤ (calculate_multi_factor_score e rc).total_score ∧
      (calculate_multi_factor_score e rc).total_score ≤ 1) := by
  have h1 := durationScoreRaw_bounds hd
  have h2 := coverageScoreRaw_bounds hcov
  have h3 := eezScoreRaw_bounds e.location.1 e.location.2
  have h4 := fishingScoreRaw_bounds e.is_fishing_vessel
    e.continuously_transmitting_nearby
  have h5 := repeatScoreRaw_bounds (rc e.mmsi)
  unfold calculate_multi_factor_score
  refine ⟨bround1000_mem_unit h1.1 (by linarith [h1.2]),
    bround1000_mem_unit h2.1 (by linarith [h2.2]),
    bround1000_mem_unit h3.1 (by linarith [h3.2]),
    bround1000_mem_unit h4.1 (by linarith [h4.2]),
    bround1000_mem_unit h5.1 (by linarith [h5.2]),
    rfl,
    bround1000_mem_unit (by linarith [h1.1, h2.1, h3.1, h4.1, h5.1])
      (by linarith [h1.2, h2.2, h3.2, h4.2, h5.2])⟩

/-- Witness for C7 (amended) at a concrete fully-populated event. -/
theorem C7_scored_event_bounds_witness :
    0 ≤ (calculate_multi_factor_score ⟨1, 0, 6, (0, 0), some 1, true, 2⟩
          (fun _ => 20)).total_score ∧
    (calculate_multi_factor_score ⟨1, 0, 6, (0, 0), some 1, true, 2⟩
          (fun _ => 20)).total_score ≤ 1 :=
  (C7_scored_event_bounds ⟨1, 0, 6, (0, 0), some 1, true, 2⟩ (fun _ => 20)
    (by norm_num) (by intro c hc; cases hc; norm_num)).2.2.2.2.2.2

/-- An event whose tiny duration sub-score (0.0004) and coverage sub-score
(0.0004) round to 0 individually while their contribution survives in the
total: unrounded sum 0.1808 stores as 0.181, but the stored sub-scores sum
to 0.180. -/
def roundGapEvent : ScoreInput := ⟨9, 0, 1/125, (40, 0), some (499/500), false, 0⟩

/-- C7 (counterexample): because every entry of the returned dict is rounded
to three decimals separately, the stored `total_score` (0.181) equals neither
the sum of the five stored sub-scores (0.180) nor the exact unrounded sum
(0.1808). -/
theorem C7_total_rounding_counterexample :
    ((calculate_multi_factor_score roundGapEvent (fun _ => 0)).total_score ≠
      (calculate_multi_factor_score roundGapEvent (fun _ => 0)).duration_score +
      (calculate_multi_factor_score roundGapEvent (fun _ => 0)).coverage_score +
      (calculate_multi_factor_score roundGapEvent (fun _ => 0)).eez_score +
      (calculate_multi_factor_score roundGapEvent (fun _ => 0)).fishing_score +
      (calculate_multi_factor_score roundGapEvent (fun _ => 0)).repeat_score) ∧
    ((calculate_multi_factor_score roundGapEvent (fun _ => 0)).total_score ≠
      durationScoreRaw roundGapEvent.duration_hours +
      coverageScoreRaw roundGapEvent.coverage_reliability +
      eezScoreRaw roundGapEvent.location.1 roundGapEvent.location.2 +
      fishingScoreRaw roundGapEvent.is_fishing_vessel
        roundGapEvent.continuously_transmitting_nearby +
      repeatScoreRaw 0) := by
  norm_num [calculate_multi_factor_score, durationScoreRaw, coverageScoreRaw,
    eezScoreRaw, fishingScoreRaw, repeatScoreRaw, calculate_eez_proximity,
    bround, roundGapEvent]

/-- C9 (counterexample): the `duration_score` entry stored by
`calculate_multi_factor_score` is rounded to three decimals, so raising the
duration from 1 h to 1.001 h (both within [1, 6]) leaves the stored score
unchanged at 0.05 — strict monotonicity fails for the stored value. -/
theorem C9_duration_strict_counterexample :
    (1 : ℚ) < 1001/1000 ∧ (1001 : ℚ)/1000 ≤ 6 ∧
    ¬ ((calculate_multi_factor_score ⟨1, 0, 1, (0, 0), none, false, 0⟩ (fun _ => 0)).duration_score <
       (calculate_multi_factor_score ⟨1, 0, 1001/1000, (0, 0), none, false, 0⟩ (fun _ => 0)).duration_score) := by
  norm_num [calculate_multi_factor_score, durationScoreRaw, bround]

/-- C9 (amended): the unrounded duration sub-score `min(d/6, 1) * 0.3` is
strictly increasing on 1 ≤ d1 < d2 ≤ 6 (the stored entry, rounded to three
decimals, increases only non-strictly); for every duration ≥ 6 hours the
stored `duration_score` equals the maximum weighted value 0.30. -/
theorem C9_duration_score_monotone (d1 d2 d : ℚ) (e : ScoreInput) (rc : ℕ → ℕ)
    (_h1 : 1 ≤ d1) (h2 : d1 < d2) (h3 : d2 ≤ 6) (h6 : 6 ≤ d)
    (hed : e.duration_hours = d) :
    durationScoreRaw d1 < durationScoreRaw d2 ∧
    (calculate_multi_factor_score e rc).duration_score = 3/10 := by
  constructor
  · unfold durationScoreRaw
    rw [min_eq_left (by linarith), min_eq_left (by linarith)]
    linarith
  · have hone : min (e.duration_hours / 6) 1 = 1 :=
      min_eq_right (by rw [hed]; linarith)
    unfold calculate_multi_factor_score durationScoreRaw
    rw [hone]
    norm_num [bround]

/-- Witness for C9 (amended) at concrete durations 1, 2 and 7. -/
theorem C9_duration_score_monotone_witness :
    durationScoreRaw 1 < durationScoreRaw 2 ∧
    (calculate_multi_factor_score ⟨1, 0, 7, (0, 0), none, false, 0⟩
      (fun _ => 0)).duration_score = 3/10 :=
  C9_duration_score_monotone 1 2 7 ⟨1, 0, 7, (0, 0), none, false, 0⟩ (fun _ => 0)
    (by norm_num) (by norm_num) (by norm_num) (by norm_num) rfl

/-- A proximity-index record as read by `get_vessels_near_location`
(proximity_index.py): that function also reads `vessel{1,2}_name` fields,
so its input records carry them. -/
structure ProxEvent where
  time_bin : ℚ
  vessel1_mmsi : ℕ
  vessel2_mmsi : ℕ
  vessel1_name : String
  vessel2_name : String
  vessel1_location : ℚ × ℚ
  vessel2_location : ℚ × ℚ
  deriving DecidableEq, Repr

structure NearbyVessel where
  mmsi : ℕ
  name : String
  location : ℚ × ℚ
  distance_km : ℚ
  time : ℚ
  deriving DecidableEq, Repr

/-- The duplicate-removal pass of `get_vessels_near_location`: keep the first
occurrence of each `(mmsi, time)` key. -/
def dedupByKey : List NearbyVessel → List (ℕ × ℚ) → List NearbyVessel
  | [], _ => []
  | v :: vs, seen =>
    if (v.mmsi, v.time) ∈ seen then dedupByKey vs seen
    else v :: dedupByKey vs ((v.mmsi, v.time) :: seen)

/-- `get_vessels_near_location` (proximity_index.py): keep proximity events
whose `time_bin` is within the time window of the target instant, emit each
of the two vessels whose haversine distance (`distKm`, external) to the
target location is within the radius, then drop duplicate `(mmsi, time)`
pairs. -/
def get_vessels_near_location (distKm : ℚ × ℚ → ℚ × ℚ → ℚ)
    (events : List ProxEvent) (targetLoc : ℚ × ℚ) (targetTime : ℚ)
    (radius_km timeWindowMinutes : ℚ) : List NearbyVessel :=
  let nearby := events.flatMap fun e =>
    if |e.time_bin - targetTime| > timeWindowMinutes * 60 then []
    else
      (if distKm targetLoc e.vessel1_location ≤ radius_km then
        [⟨e.vessel1_mmsi, e.vessel1_name, e.vessel1_location,
          bround 100 (distKm targetLoc e.vessel1_location), e.time_bin⟩]
       else []) ++
      (if distKm targetLoc e.vessel2_location ≤ radius_km then
        [⟨e.vessel2_mmsi, e.vessel2_name, e.vessel2_location,
          bround 100 (distKm targetLoc e.vessel2_location), e.time_bin⟩]
       else [])
  dedupByKey nearby []

/-- A dark event as consumed by `check_dark_event_context`. -/
structure DarkEventIn where
  mmsi : ℕ
  start : ℚ
  end_ : ℚ
  location : ℚ × ℚ
  duration_hours : ℚ
  is_fishing_vessel : Bool := false
  deriving DecidableEq, Repr

/-- The context fields written onto each dark event by
`check_dark_event_context`. -/
structure ContextOut where
  nearby_vessels_at_start : ℕ
  nearby_vessels_at_end : ℕ
  unique_nearby_vessels : ℕ
  continuously_transmitting_nearby : ℕ
  coverage_reliability : ℚ
  confidence_score : ℚ
  high_confidence : Bool
  deriving DecidableEq, Repr

/-- The `unique_nearby_vessels` set: distinct MMSIs among the vessels found
near the start and end instants, with the event's own vessel discarded. -/
def uniqueNearbyOf (distKm : ℚ × ℚ → ℚ × ℚ → ℚ) (prox : List ProxEvent)
    (ev : DarkEventIn) (radius window : ℚ) : List ℕ :=
  (((get_vessels_near_location distKm prox ev.location ev.start radius window) ++
    (get_vessels_near_location distKm prox ev.location ev.end_ radius window)).map
      (fun v => v.mmsi)).dedup.filter (fun m => m ≠ ev.mmsi)

/-- `len(df_ais[(MMSI == m) & (t >= start) & (t <= end)]) > 0`: the nearby
vessel transmitted during the CLOSED dark interval. -/
def hasTransmissionIn (ais : List AisFix) (m : ℕ) (s e : ℚ) : Bool :=
  (ais.filter fun f => f.mmsi == m && decide (s ≤ f.t) && decide (f.t ≤ e)).length > 0

def continuouslyTransmittingOf (ais : List AisFix) (uniq : List ℕ)
    (s e : ℚ) : List ℕ :=
  uniq.filter fun m => hasTransmissionIn ais m s e

/-- The per-event body of `check_dark_event_context` (dark_event_context.py). -/
def check_one_dark_event (distKm : ℚ × ℚ → ℚ × ℚ → ℚ)
    (prox : List ProxEvent) (ais : List AisFix) (radius window : ℚ)
    (ev : DarkEventIn) : ContextOut :=
  let nearbyStart := get_vessels_near_location distKm prox ev.location ev.start radius window
  let nearbyEnd := get_vessels_near_location distKm prox ev.location ev.end_ radius window
  let uniq := uniqueNearbyOf distKm prox ev radius window
  let ct := continuouslyTransmittingOf ais uniq ev.start ev.end_
  let coverage : ℚ := (ct.length : ℚ) / ((max uniq.length 1 : ℕ) : ℚ)
  let durationFactor : ℚ := min (ev.duration_hours / 3) 1
  let confidence : ℚ := 1/2 * coverage + 3/10 * durationFactor +
    2/10 * (if ev.is_fishing_vessel then 1 else 0)
  { nearby_vessels_at_start := nearbyStart.length
    nearby_vessels_at_end := nearbyEnd.length
    unique_nearby_vessels := uniq.length
    continuously_transmitting_nearby := ct.length
    coverage_reliability := bround 1000 coverage
    confidence_score := bround 1000 confidence
    high_confidence := decide ((6:ℚ)/10 ≤ confidence) }

/-- `check_dark_event_context` enriches every dark event in order. -/
def check_dark_event_context (distKm : ℚ × ℚ → ℚ × ℚ → ℚ)
    (darkEvents : List DarkEventIn) (prox : List ProxEvent)
    (ais : List AisFix) (radius window : ℚ) : List ContextOut :=
  darkEvents.map (check_one_dark_event distKm prox ais radius window)

/-- The coverage value asserted by the claim, from the spec's words: a nearby
vessel counts as continuously transmitting exactly when it has a transmission
STRICTLY inside the open interval `(E.start, E.end)`. -/
def specCoverageOpenInterval (distKm : ℚ × ℚ → ℚ × ℚ → ℚ)
    (prox : List ProxEvent) (ais : List AisFix) (radius window : ℚ)
    (ev : DarkEventIn) : ℚ :=
  let uniq := uniqueNearbyOf distKm prox ev radius window
  ((uniq.filter fun m =>
      ais.any fun f => f.mmsi == m && decide (ev.start < f.t) && decide (f.t < ev.end_)).length : ℚ) /
    ((max uniq.length 1 : ℕ) : ℚ)

/-- Distance on coordinate pairs agreeing with haversine on the scenario
inputs: identical coordinates are at distance 0, the rest far away. -/
def pairDist (p q : ℚ × ℚ) : ℚ := if p = q then 0 else 1000000

/-- Scenario for C8: a dark event of vessel 1 over [0 s, 3600 s]; vessel 2 is
nearby at the start bin and its only transmission is exactly at `E.start`. -/
def c8Event : DarkEventIn := ⟨1, 0, 3600, (10, 20), 1, false⟩

def c8Prox : List ProxEvent := [⟨0, 1, 2, "A", "B", (10, 20), (10, 20)⟩]

def c8Ais : List AisFix := [⟨2, 0, 10, 20, 0, -1, 0⟩]

/-- C8 (counterexample): the code counts transmissions in the CLOSED interval
`start <= t <= end`; a nearby vessel transmitting exactly at `E.start` is
counted, so the enricher stores `coverage_reliability = 1`, while the
claim's open-interval rule yields 0. -/
theorem C8_open_interval_counterexample :
    (check_one_dark_event pairDist c8Prox c8Ais 20 15 c8Event).coverage_reliability = 1 ∧
    specCoverageOpenInterval pairDist c8Prox c8Ais 20 15 c8Event = 0 ∧
    (1 : ℚ) ≠ bround 1000 (specCoverageOpenInterval pairDist c8Prox c8Ais 20 15 c8Event) := by
  have hopen : specCoverageOpenInterval pairDist c8Prox c8Ais 20 15 c8Event = 0 := by
    norm_num [specCoverageOpenInterval, uniqueNearbyOf, get_vessels_near_location,
      dedupByKey, pairDist, c8Prox, c8Ais, c8Event, List.filter_cons,
      List.filter_nil, List.dedup, List.pwFilter, List.any_cons, List.any_nil,
      beq_iff_eq, bround]
  refine ⟨?_, hopen, ?_⟩
  · norm_num [check_one_dark_event, uniqueNearbyOf, continuouslyTransmittingOf,
      hasTransmissionIn, get_vessels_near_location, dedupByKey, pairDist,
      c8Prox, c8Ais, c8Event, List.filter_cons, List.filter_nil, List.dedup,
      List.pwFilter, beq_iff_eq, bround]
  · rw [hopen]
    norm_num [bround]

/-- C8 (amended): the stored `coverage_reliability` is the three-decimal
rounding of `|continuously_transmitting| / max(1, |unique_nearby_vessels|)`,
where a nearby vessel is continuously transmitting exactly when it has at
least one transmission in the CLOSED interval `[E.start, E.end]` (boundary
instants included); with zero unique nearby vessels the value is 0, and it
always lies in [0, 1]. -/
theorem C8_coverage_reliability (distKm : ℚ × ℚ → ℚ × ℚ → ℚ)
    (prox : List ProxEvent) (ais : List AisFix) (radius window : ℚ)
    (ev : DarkEventIn) :
    (check_one_dark_event distKm prox ais radius window ev).coverage_reliability =
      bround 1000
        (((continuouslyTransmittingOf ais
            (uniqueNearbyOf distKm prox ev radius window) ev.start ev.end_).length : ℚ) /
          ((max (uniqueNearbyOf distKm prox ev radius window).length 1 : ℕ) : ℚ)) ∧
    (∀ m : ℕ,
      m ∈ continuouslyTransmittingOf ais
            (uniqueNearbyOf distKm prox ev radius window) ev.start ev.end_ ↔
      m ∈ uniqueNearbyOf distKm prox ev radius window ∧
        ∃ f ∈ ais, f.mmsi = m ∧ ev.start ≤ f.t ∧ f.t ≤ ev.end_) ∧
    (uniqueNearbyOf distKm prox ev radius window = [] →
      (check_one_dark_event distKm prox ais radius window ev).coverage_reliability = 0) ∧
    (0 ≤ (check_one_dark_event distKm prox ais radius window ev).coverage_reliability ∧
      (check_one_dark_event distKm prox ais radius window ev).coverage_reliability ≤ 1) := by
  have hsub : ∀ uniq : List ℕ,
      (continuouslyTransmittingOf ais uniq ev.start ev.end_).length ≤ uniq.length :=
    fun uniq => List.length_filter_le _ uniq
  refine ⟨rfl, ?_, ?_, ?_⟩
  · intro m
    unfold continuouslyTransmittingOf hasTransmissionIn
    rw [List.mem_filter]
    constructor
    · rintro ⟨hm, hp⟩
      refine ⟨hm, ?_⟩
      have hlen : 0 < (ais.filter fun f =>
          f.mmsi == m && decide (ev.start ≤ f.t) && decide (f.t ≤ ev.end_)).length :=
        of_decide_eq_true hp
      obtain ⟨f, hfais, hb1, hb2, hb3⟩ :
          ∃ f ∈ ais, f.mmsi = m ∧ ev.start ≤ f.t ∧ f.t ≤ ev.end_ := by
        simpa [List.length_pos, List.filter_eq_nil_iff] using hlen
      exact ⟨f, hfais, hb1, hb2, hb3⟩
    · rintro ⟨hm, f, hfais, hfm, hfs, hfe⟩
      refine ⟨hm, ?_⟩
      have hf : f ∈ ais.filter fun f =>
          f.mmsi == m && decide (ev.start ≤ f.t) && decide (f.t ≤ ev.end_) := by
        rw [List.mem_filter]
        refine ⟨hfais, ?_⟩
        simp only [Bool.and_eq_true, beq_iff_eq, decide_eq_true_eq]
        exact ⟨⟨hfm, hfs⟩, hfe⟩
      have : 0 < (ais.filter fun f =>
          f.mmsi == m && decide (ev.start ≤ f.t) && decide (f.t ≤ ev.end_)).length :=
        List.length_pos.mpr (List.ne_nil_of_mem hf)
      exact decide_eq_true this
  · intro huniq
    unfold check_one_dark_event
    simp only [huniq]
    norm_num [continuouslyTransmittingOf, bround]
  · unfold check_one_dark_event
    have hn : (0:ℚ) < ((max (uniqueNearbyOf distKm prox ev radius window).length 1 : ℕ) : ℚ) := by
      have : 1 ≤ max (uniqueNearbyOf distKm prox ev radius window).length 1 :=
        le_max_right _ _
      exact_mod_cast Nat.lt_of_lt_of_le Nat.zero_lt_one this
    have hk : ((continuouslyTransmittingOf ais
        (uniqueNearbyOf distKm prox ev radius window) ev.start ev.end_).length : ℚ) ≤
        ((max (uniqueNearbyOf distKm prox ev radius window).length 1 : ℕ) : ℚ) := by
      have h1 := hsub (uniqueNearbyOf distKm prox ev radius window)
      have h2 : (uniqueNearbyOf distKm prox ev radius window).length ≤
          max (uniqueNearbyOf distKm prox ev radius window).length 1 := le_max_left _ _
      exact_mod_cast le_trans h1 h2
    refine bround1000_mem_unit (div_nonneg (by positivity) hn.le) ?_
    rw [div_le_one hn]
    exact hk

/-- Witness for C8 (amended): with an empty proximity index there are no
unique nearby vessels and the stored coverage reliability is 0. -/
theorem C8_coverage_reliability_witness :
    (check_one_dark_event pairDist [] c8Ais 20 15 c8Event).coverage_reliability = 0 :=
  (C8_coverage_reliability pairDist [] c8Ais 20 15 c8Event).2.2.1 rfl

/-- `_check_mpa_violation` (services/comprehensive_detector.py): returns
`False` when the MPA table is absent or empty, and the spatial join is an
unimplemented placeholder that also returns `False`. -/
def check_mpa_violation (mpaData : Option (List Unit)) (lat lon : ℚ) : Bool :=
  match mpaData with
  | none => false
  | some l => if l.isEmpty then false else false

/-- The `in_mpa` flag of `_calculate_comprehensive_risk`: consulted only when
the MPA table is present and nonempty. -/
def in_mpa_of (mpaData : Option (List Unit)) (lat lon : ℚ) : Bool :=
  match mpaData with
  | none => false
  | some l => if l.isEmpty then false else check_mpa_violation mpaData lat lon

lemma check_mpa_violation_false (mpaData : Option (List Unit)) (lat lon : ℚ) :
    check_mpa_violation mpaData lat lon = false := by
  cases mpaData <;> simp [check_mpa_violation]

lemma in_mpa_of_false (mpaData : Option (List Unit)) (lat lon : ℚ) :
    in_mpa_of mpaData lat lon = false := by
  cases mpaData <;> simp [in_mpa_of, check_mpa_violation]

/-- `_classify_violation`: the Python call site passes the raw tri-state
`is_fishing` integer into the `bool`-annotated parameter, so Python
truthiness applies: any nonzero value (including the "unknown" −1) is
treated as fishing. -/
def classify_violation (in_mpa : Bool) (is_fishing : ℤ)
    (has_dark_period has_speed_anomaly : Bool) : String :=
  if in_mpa && decide (is_fishing ≠ 0) then "ILLEGAL_FISHING_IN_MPA"
  else if in_mpa then "MPA_INTRUSION"
  else if has_dark_period && decide (is_fishing ≠ 0) then "FISHING_WITH_AIS_OFF"
  else if has_dark_period then "SUSPICIOUS_AIS_SILENCE"
  else if has_speed_anomaly && decide (is_fishing ≠ 0) then "SUSPICIOUS_FISHING_BEHAVIOR"
  else "GENERAL_SUSPICIOUS_ACTIVITY"

/-- `curr_row['timestamp'].hour` for an epoch-seconds timestamp. -/
def hourOf (t : ℚ) : ℤ := ⌊t / 3600⌋ % 24

/-- The dict returned by `_calculate_comprehensive_risk`. -/
structure RiskOut where
  total_risk_score : ℚ
  dark_period_hours : ℚ
  dark_period_risk : ℚ
  mpa_violation : Bool
  mpa_risk : ℚ
  fishing_detected : Bool
  fishing_risk : ℚ
  speed_anomaly_risk : ℚ
  distance_risk : ℚ
  nighttime_operation : Bool
  nighttime_risk : ℚ
  distance_from_shore_km : ℚ
  shore_distance_risk : ℚ
  current_speed_knots : ℚ
  violation_type : String
  deriving DecidableEq, Repr

/-- `_calculate_comprehensive_risk` (services/comprehensive_detector.py).
`geoKm` is the external `geopy.distance.geodesic(...).kilometers`. -/
def calc_comprehensive_risk (mpaData : Option (List Unit))
    (geoKm : AisFix → AisFix → ℚ) (prev curr : AisFix)
    (time_gap_hours : ℚ) : RiskOut :=
  let dark_period_risk : ℚ :=
    if time_gap_hours ≥ 3 then min (time_gap_hours / 24) 1 else 0
  let speed_risk_base : ℚ :=
    if curr.speed < 2 ∧ curr.speed > 0 then 6/10
    else if curr.speed > 15 then 4/10
    else 0
  let speed_risk : ℚ :=
    if |curr.speed - prev.speed| > 10 then max speed_risk_base (5/10)
    else speed_risk_base
  let in_mpa := in_mpa_of mpaData curr.lat curr.lon
  let mpa_risk : ℚ := if in_mpa then 8/10 else 0
  let fishing_risk : ℚ :=
    if curr.is_fishing = 1 then (if in_mpa then 1 else 3/10) else 0
  let distance_risk : ℚ :=
    if time_gap_hours > 0 then
      (if geoKm prev curr / time_gap_hours > 20
       then min (geoKm prev curr / time_gap_hours / 40) 1 else 0)
    else 0
  let is_nighttime : Bool := decide (hourOf curr.t ≥ 20 ∨ hourOf curr.t ≤ 5)
  let nighttime_risk : ℚ :=
    if is_nighttime then (if curr.is_fishing = 1 then 5/10 else 2/10) else 0
  let shore_risk : ℚ := if curr.distance_from_shore > 100000 then 3/10 else 0
  let total : ℚ :=
    25/100 * dark_period_risk + 30/100 * mpa_risk + 20/100 * fishing_risk +
    10/100 * speed_risk + 8/100 * distance_risk + 4/100 * nighttime_risk +
    3/100 * shore_risk
  { total_risk_score := bround 1000 total
    dark_period_hours := if time_gap_hours ≥ 3 then time_gap_hours else 0
    dark_period_risk := bround 1000 dark_period_risk
    mpa_violation := in_mpa
    mpa_risk := bround 1000 mpa_risk
    fishing_detected := decide (curr.is_fishing = 1)
    fishing_risk := bround 1000 fishing_risk
    speed_anomaly_risk := bround 1000 speed_risk
    distance_risk := bround 1000 distance_risk
    nighttime_operation := is_nighttime
    nighttime_risk := bround 1000 nighttime_risk
    distance_from_shore_km :=
      if curr.distance_from_shore ≠ 0 then curr.distance_from_shore / 1000 else 0
    shore_distance_risk := bround 1000 shore_risk
    current_speed_knots := curr.speed
    violation_type := classify_violation in_mpa curr.is_fishing
      (decide (dark_period_risk > 0)) (decide (speed_risk > 0)) }

/-- One emitted suspicious-segment row of `detect_illegal_activity`
(the copied `vessel_type` metadata column is omitted). -/
structure Segment where
  mmsi : ℕ
  start_time : ℚ
  end_time : ℚ
  start_lat : ℚ
  start_lon : ℚ
  end_lat : ℚ
  end_lon : ℚ
  risk : RiskOut
  deriving DecidableEq, Repr

/-- `detect_illegal_activity`: sort by `(mmsi, timestamp)`, evaluate every
consecutive same-vessel pair, and keep the segments whose
`total_risk_score >= 0.3`. -/
def detect_illegal_activity (mpaData : Option (List Unit))
    (geoKm : AisFix → AisFix → ℚ) (df : List AisFix) : List Segment :=
  (withPrev (sortFix df) none).filterMap fun pr =>
    match pr.1 with
    | none => none
    | some q =>
      let r := calc_comprehensive_risk mpaData geoKm q pr.2 ((pr.2.t - q.t) / 3600)
      if r.total_risk_score ≥ 3/10 then
        some ⟨pr.2.mmsi, q.t, pr.2.t, q.lat, q.lon, pr.2.lat, pr.2.lon, r⟩
      else none

lemma classify_violation_no_mpa (isf : ℤ) (hd hs : Bool) :
    classify_violation false isf hd hs ≠ "ILLEGAL_FISHING_IN_MPA" ∧
    classify_violation false isf hd hs ≠ "MPA_INTRUSION" := by
  constructor <;>
    (unfold classify_violation; simp; split_ifs <;> decide)

lemma calc_mpa_risk_zero (mpaData : Option (List Unit))
    (geoKm : AisFix → AisFix → ℚ) (prev curr : AisFix) (gap : ℚ) :
    (calc_comprehensive_risk mpaData geoKm prev curr gap).mpa_risk = 0 := by
  simp only [calc_comprehensive_risk, in_mpa_of_false, Bool.false_eq_true,
    if_false]
  norm_num [bround]

lemma calc_violation_no_mpa (mpaData : Option (List Unit))
    (geoKm : AisFix → AisFix → ℚ) (prev curr : AisFix) (gap : ℚ) :
    (calc_comprehensive_risk mpaData geoKm prev curr gap).violation_type ≠
      "ILLEGAL_FISHING_IN_MPA" ∧
    (calc_comprehensive_risk mpaData geoKm prev curr gap).violation_type ≠
      "MPA_INTRUSION" := by
  simp only [calc_comprehensive_risk, in_mpa_of_false]
  exact classify_violation_no_mpa curr.is_fishing _ _

/-- C6: the MPA membership predicate returns false for every input, so
`mpa_risk` is 0 in every evaluated segment, no evaluated segment is ever
classified ILLEGAL_FISHING_IN_MPA or MPA_INTRUSION, and every segment
emitted by `detect_illegal_activity` satisfies all of this. -/
theorem C6_mpa_predicate_stub (mpaData : Option (List Unit))
    (geoKm : AisFix → AisFix → ℚ) (lat lon : ℚ) (prev curr : AisFix)
    (gap : ℚ) (df : List AisFix) :
    check_mpa_violation mpaData lat lon = false ∧
    (calc_comprehensive_risk mpaData geoKm prev curr gap).mpa_risk = 0 ∧
    (calc_comprehensive_risk mpaData geoKm prev curr gap).violation_type ≠
      "ILLEGAL_FISHING_IN_MPA" ∧
    (calc_comprehensive_risk mpaData geoKm prev curr gap).violation_type ≠
      "MPA_INTRUSION" ∧
    (detect_illegal_activity mpaData geoKm df).all
      (fun s => s.risk.mpa_risk == 0 &&
        !(s.risk.violation_type == "ILLEGAL_FISHING_IN_MPA") &&
        !(s.risk.violation_type == "MPA_INTRUSION")) = true := by
  refine ⟨check_mpa_violation_false _ _ _, calc_mpa_risk_zero _ _ _ _ _,
    (calc_violation_no_mpa _ _ _ _ _).1, (calc_violation_no_mpa _ _ _ _ _).2, ?_⟩
  rw [List.all_eq_true]
  intro s hsmem
  obtain ⟨pr, _hpr, hsome⟩ := List.mem_filterMap.mp hsmem
  rcases hpr1 : pr.1 with _ | q
  · rw [hpr1] at hsome; simp at hsome
  · rw [hpr1] at hsome
    simp only at hsome
    by_cases hge : (calc_comprehensive_risk mpaData geoKm q pr.2
        ((pr.2.t - q.t) / 3600)).total_risk_score ≥ 3/10
    · rw [if_pos hge] at hsome
      have hs : s = ⟨pr.2.mmsi, q.t, pr.2.t, q.lat, q.lon, pr.2.lat, pr.2.lon,
          calc_comprehensive_risk mpaData geoKm q pr.2 ((pr.2.t - q.t) / 3600)⟩ :=
        (Option.some_injective _ hsome).symm
      rw [hs]
      have h1 := calc_mpa_risk_zero mpaData geoKm q pr.2 ((pr.2.t - q.t) / 3600)
      have h2 := calc_violation_no_mpa mpaData geoKm q pr.2 ((pr.2.t - q.t) / 3600)
      simp [h1, h2.1, h2.2]
    · rw [if_neg hge] at hsome; simp at hsome

/-- C10: with the tri-state `is_fishing` unknown (−1), the risk calculator
assigns `fishing_risk = 0` (the 0.3/1.0 branch requires `is_fishing == 1`),
yet `_classify_violation` receives the raw integer, whose Python truthiness
makes −1 count as fishing: a segment with a dark period (gap ≥ 3 h) and
unknown fishing status is classified FISHING_WITH_AIS_OFF, not
SUSPICIOUS_AIS_SILENCE. -/
theorem C10_unknown_fishing_truthy (mpaData : Option (List Unit))
    (geoKm : AisFix → AisFix → ℚ) (prev curr : AisFix) (gap : ℚ)
    (hif : curr.is_fishing = -1) (hgap : 3 ≤ gap) :
    (calc_comprehensive_risk mpaData geoKm prev curr gap).fishing_risk = 0 ∧
    (calc_comprehensive_risk mpaData geoKm prev curr gap).violation_type =
      "FISHING_WITH_AIS_OFF" := by
  have hdark : (0:ℚ) < (if gap ≥ 3 then min (gap / 24) 1 else 0) := by
    rw [if_pos hgap]
    exact lt_min (by linarith) (by norm_num)
  constructor
  · simp only [calc_comprehensive_risk, hif]
    norm_num [bround]
  · simp only [calc_comprehensive_risk, in_mpa_of_false, hif]
    unfold classify_violation
    simp only [Bool.false_and, Bool.false_eq_true, if_false,
      decide_eq_true hdark, Bool.true_and]
    norm_num

/-- Witness for C10 at a concrete unknown-fishing dark segment. -/
theorem C10_unknown_fishing_truthy_witness :
    (calc_comprehensive_risk none (fun _ _ => 0) ⟨1, 0, 0, 0, 0, -1, 0⟩
      ⟨1, 14400, 0, 0, 0, -1, 0⟩ 4).fishing_risk = 0 ∧
    (calc_comprehensive_risk none (fun _ _ => 0) ⟨1, 0, 0, 0, 0, -1, 0⟩
      ⟨1, 14400, 0, 0, 0, -1, 0⟩ 4).violation_type = "FISHING_WITH_AIS_OFF" :=
  C10_unknown_fishing_truthy none (fun _ _ => 0) ⟨1, 0, 0, 0, 0, -1, 0⟩
    ⟨1, 14400, 0, 0, 0, -1, 0⟩ 4 rfl (by norm_num)
